import Mathlib

/-!
Verification of the batching / middleware / delivery engine of
`src/splunklogger.js` (a Splunk HTTP Event Collector client).

The JavaScript source is shallowly embedded: JS scalar values become the
inductive `JSAtom`, configuration objects become `JSConfig` (each field an
`Option JSAtom`, `none` meaning the key is absent), the per-event envelope
becomes `JSContext`, and the mutable logger (`this`) becomes `LoggerState`
threaded explicitly through the operations.  Functions that `throw` in JS
return `Except String`.

Names track the source with the leading underscore dropped and, for the
normalisation helpers, `normalize`/`mk` in place of the source's
initialisation prefix:
  `_initializeConfig`         → `resolveConfig`
  `_initializeRequestOptions` → `mkRequestOptions`
  `_initializeMessage`        → `normalizeMessage`
  `_initializeMetadata`       → `normalizeMetadata`
  `_initializeContext`        → `normalizeContext`
  `_sendEvents`               → `sendEvents`
  `calculateBatchSize`, `send`, `flush` keep their names.

The helper module `utils.js` (`whilst`, `chain`, `expBackoff`, `formatTime`)
is part of the repository but is not under `src/`; those helpers are
modelled from the spec and are marked `Modelled from the spec:` below.
Node built-ins (`url.parse`, `JSON.stringify`, `Buffer.byteLength`,
`Date.now`, `setInterval`) are external collaborators; `Date.now` is passed
in as a `now` parameter, serialization is modelled concretely (its exact
byte output is not load-bearing for any claim), and candidates that set a
`url` key (which the source hands to `url.parse`) are outside the modelled
domain.
-/

/-- A JavaScript scalar value.  `obj` is an opaque object reference (used for
payloads the embedding never inspects); fractional numbers do not occur in
the modelled configuration flows, so numbers are integers. -/
inductive JSAtom where
  | undef
  | nullv
  | bool (b : Bool)
  | num (n : Int)
  | str (s : String)
  | obj (id : Nat)
  deriving DecidableEq, Repr

namespace JSAtom

/-- JS truthiness: `undefined`, `null`, `false`, `0` and `""` are falsy. -/
def truthy : JSAtom → Bool
  | .undef => false
  | .nullv => false
  | .bool b => b
  | .num n => n != 0
  | .str s => s != ""
  | .obj _ => true

/-- `typeof v === "string"`. -/
def isStr : JSAtom → Bool
  | .str _ => true
  | _ => false

/-- JS string coercion, as used by `+` string concatenation. -/
def toStr : JSAtom → String
  | .undef => "undefined"
  | .nullv => "null"
  | .bool b => if b then "true" else "false"
  | .num n => toString n
  | .str s => s
  | .obj _ => "[object Object]"

end JSAtom

/-- Reading an object key: an absent key yields `undefined`. -/
def valOf : Option JSAtom → JSAtom
  | none => .undef
  | some v => v

/-- JS `a || b`. -/
def jsOr (a b : JSAtom) : JSAtom :=
  if a.truthy then a else b

/-- Digits-prefix accumulator for `parseInt`. -/
def digitsToInt (ds : List Char) : Int :=
  ds.foldl (fun a c => a * 10 + ((c.toNat : Int) - 48)) 0

/-- `parseInt(s, 10)` on a string: skip whitespace, optional sign, then the
longest digit prefix; no digits means `NaN` (`none`). -/
def parseIntStr (s : String) : Option Int :=
  let cs := s.toList.dropWhile (fun c => c = ' ' ∨ c = '\t' ∨ c = '\n' ∨ c = '\r')
  let signAndRest : Bool × List Char :=
    match cs with
    | '-' :: r => (true, r)
    | '+' :: r => (false, r)
    | r => (false, r)
  let ds := signAndRest.2.takeWhile Char.isDigit
  if ds.isEmpty then none
  else some ((if signAndRest.1 then -1 else 1) * digitsToInt ds)

/-- `parseInt(v, 10)`: numbers pass through, strings are parsed, everything
else (booleans, `null`, `undefined`, objects) is `NaN` (`none`). -/
def parseIntJS : JSAtom → Option Int
  | .num n => some n
  | .str s => parseIntStr s
  | _ => none

/-- Full-string numeric coercion (`Number(v)`), used by JS `<` / `>`
comparisons against numbers; `none` is `NaN`. -/
def jsToNumber : JSAtom → Option Int
  | .undef => none
  | .nullv => some 0
  | .bool b => some (if b then 1 else 0)
  | .num n => some n
  | .str s =>
    let t := s.trim
    if t = "" then some 0
    else
      let signAndRest : Bool × List Char :=
        match t.toList with
        | '-' :: r => (true, r)
        | '+' :: r => (false, r)
        | r => (false, r)
      if signAndRest.2 ≠ [] ∧ signAndRest.2.all Char.isDigit then
        some ((if signAndRest.1 then -1 else 1) * digitsToInt signAndRest.2)
      else none
  | .obj _ => none

/-- JS `a > n` where `a` is an arbitrary value and `n` a number; `NaN`
comparisons are false. -/
def atomGtInt (a : JSAtom) (n : Int) : Bool :=
  match jsToNumber a with
  | some v => decide (n < v)
  | none => false

/-- JS `n > a` where `n` is a number and `a` an arbitrary value. -/
def intGtAtom (n : Int) (a : JSAtom) : Bool :=
  match jsToNumber a with
  | some v => decide (v < n)
  | none => false

/-- The configuration object (`config` in `splunklogger.js`).  Each field is
`none` when the key is absent; a present key may still hold `undefined`. -/
structure JSConfig where
  token : Option JSAtom := none
  name : Option JSAtom := none
  host : Option JSAtom := none
  path : Option JSAtom := none
  protocol : Option JSAtom := none
  port : Option JSAtom := none
  level : Option JSAtom := none
  autoFlush : Option JSAtom := none
  maxRetries : Option JSAtom := none
  batchInterval : Option JSAtom := none
  maxBatchSize : Option JSAtom := none
  url : Option JSAtom := none
  deriving DecidableEq, Repr

/-- The timer fields of the logger: `_timerID` (modelled as a Bool: a live
handle or `null`) and `_timerDuration`. -/
structure TimerState where
  id : Bool
  duration : Int
  deriving DecidableEq, Repr

/-- Shared numeric-field validation of `_initializeConfig` (lines 250-256,
272-278, 281-287): `parseInt` then reject `NaN` and negatives. -/
def parseNonNeg (label : String) (v : JSAtom) : Except String Int :=
  match parseIntJS v with
  | none => .error (label ++ " must be a number, found: NaN")
  | some k =>
    if k < 0 then .error (label ++ " must be a positive number, found: " ++ toString k)
    else .ok k

/-- Port resolution (lines 301-309): instance-then-default when the call
config has no `port` key, otherwise `parseInt` of the call value. -/
def resolvePort (inst cand : JSConfig) : Except String JSAtom :=
  match cand.port with
  | none => .ok (jsOr (valOf inst.port) (.num 8088))
  | some p =>
    match parseIntJS p with
    | none => .error "Port must be an integer, found: NaN"
    | some k => .ok (.num k)

/-- Port range check (lines 310-312); a non-numeric stored port compares as
`NaN` and passes. -/
def portInRange (p : JSAtom) : Bool :=
  match jsToNumber p with
  | none => true
  | some v => decide (1000 ≤ v ∧ v ≤ 65535)

/-- Timer upsert of `_initializeConfig` (lines 289-299) with `_enableTimer`
(lines 155-184) and `_disableTimer` (lines 140-146) inlined; `_enableTimer`
also writes the interval back into the instance config when that key exists
(lines 166-169).  `setInterval` itself is an external collaborator; only the
handle/duration bookkeeping is modelled. -/
def timerUpsert (tm : TimerState) (inst : JSConfig) (af : Bool) (bi : Int) :
    TimerState × JSConfig :=
  let startTimer := !tm.id && af && decide (0 < bi)
  let changeTimer := tm.id && af && (tm.duration != bi) && decide (0 < bi)
  if startTimer || changeTimer then
    ({ id := true, duration := bi },
     if inst.batchInterval.isSome then { inst with batchInterval := some (.num bi) } else inst)
  else if tm.id && (decide (tm.duration < 0) || !af) then
    ({ id := false, duration := 0 }, inst)
  else (tm, inst)

/-- The effective `autoFlush` of `_initializeConfig` (lines 258-269): start
from the default `true`, then instance-level presence, then call-level
presence, finally coerce with `!!`. -/
def effAutoFlush (inst cand : JSConfig) : Bool :=
  JSAtom.truthy
    (if cand.autoFlush.isSome then valOf cand.autoFlush
     else if inst.autoFlush.isSome then valOf inst.autoFlush
     else .bool true)

/-- `_initializeConfig` (lines 194-315).  `inst` is `this.config` (the empty
`JSConfig` when constructing), `tm` the timer fields, `cand` the argument.
Returns the resolved config, the (possibly updated) instance config and the
new timer state.  The guards for an absent or non-object argument
(lines 203-207) are outside the modelled domain: every modelled call site
passes an object.  Candidates with a truthy `url` are handed to Node's
`url.parse` (an external collaborator, spec §1) and are likewise outside the
modelled domain. -/
def resolveConfig (inst : JSConfig) (tm : TimerState) (cand : JSConfig) :
    Except String (JSConfig × JSConfig × TimerState) :=
  if inst.token.isNone ∧ cand.token.isNone then
    .error "Config object must have a token."
  else if ¬(valOf inst.token).isStr ∧ ¬(valOf cand.token).isStr then
    .error "Config token must be a string."
  else if (valOf cand.url).truthy then
    .error "unmodelled: url candidates are handled by the external url.parse"
  else
    let token := jsOr (valOf cand.token) (valOf inst.token)
    let name := jsOr (valOf cand.name) (jsOr (valOf inst.name) (.str "splunk-javascript-logging/0.8.0"))
    let host := jsOr (valOf cand.host) (jsOr (valOf inst.host) (.str "localhost"))
    let path := jsOr (valOf cand.path) (jsOr (valOf inst.path) (.str "/services/collector/event/1.0"))
    let protocol := jsOr (valOf cand.protocol) (jsOr (valOf inst.protocol) (.str "https"))
    let level := jsOr (valOf cand.level) (jsOr (valOf inst.level) (.str "info"))
    match parseNonNeg "Max retries" (jsOr (valOf cand.maxRetries) (jsOr (valOf inst.maxRetries) (.num 0))) with
    | .error e => .error e
    | .ok mr =>
      let af := effAutoFlush inst cand
      match parseNonNeg "Max batch size" (jsOr (valOf cand.maxBatchSize) (jsOr (valOf inst.maxBatchSize) (.num 0))) with
      | .error e => .error e
      | .ok mbs =>
        match parseNonNeg "Batch interval" (jsOr (valOf cand.batchInterval) (jsOr (valOf inst.batchInterval) (.num 0))) with
        | .error e => .error e
        | .ok bi =>
          let tmInst := timerUpsert tm inst af bi
          match resolvePort inst cand with
          | .error e => .error e
          | .ok portv =>
            if portInRange portv then
              .ok ({ inst with
                      token := some token, name := some name, host := some host,
                      path := some path, protocol := some protocol, level := some level,
                      maxRetries := some (.num mr), autoFlush := some (.bool af),
                      maxBatchSize := some (.num mbs), batchInterval := some (.num bi),
                      port := some portv },
                   tmInst.2, tmInst.1)
            else
              .error ("Port must be an integer between 1000 and 65535, found: " ++ portv.toStr)

/-- A JS value that can sit in `context.message`: either a scalar/opaque value
or (after `flush` rewrites the message) a `_makeBody` result, i.e. the
event/1.0 envelope `{time, host?, source?, sourcetype?, index?, event}`
with the event's message nested inside. -/
inductive MsgVal where
  | atom (a : JSAtom)
  | body (time : String) (host source sourcetype index : Option JSAtom)
      (eventMessage : MsgVal) (eventSeverity : JSAtom)
  deriving DecidableEq, Repr

/-- Reading `context.message`: an absent key is `undefined`. -/
def valOfMsg : Option MsgVal → MsgVal
  | none => .atom .undef
  | some m => m

/-- `context.metadata`: either a non-plain value or an object carrying (at
most) the five recognised keys.  Opaque object references (`JSAtom.obj`) in
the model carry no recognised metadata keys. -/
inductive JSMeta where
  | atom (a : JSAtom)
  | mobj (time host source sourcetype index : Option JSAtom)
  deriving DecidableEq, Repr

/-- Truthiness of a metadata value (objects are always truthy). -/
def metaTruthy : JSMeta → Bool
  | .atom a => a.truthy
  | .mobj _ _ _ _ _ => true

/-- The request headers the embedding tracks: `Authorization` and
`content-type` (the two the source writes). -/
structure Headers where
  auth : Option String := none
  contentType : Option String := none
  deriving DecidableEq, Repr

/-- `requestOptions` (see `defaultRequestOptions`, lines 128-132, plus the
`body` key `flush` adds at line 714). -/
structure ReqOpts where
  json : Option JSAtom := none
  strictSSL : JSAtom := .undef
  url : String := ""
  headers : Option Headers := none
  body : Option MsgVal := none
  deriving DecidableEq, Repr

/-- The `context` envelope (§3 of the spec).  `none` marks an absent key;
`config` is `none` when the key is absent or holds a falsy value (the source
only ever tests it with `context.config || this.config`). -/
structure JSContext where
  message : Option MsgVal := none
  severity : Option JSAtom := none
  metadata : Option JSMeta := none
  config : Option JSConfig := none
  requestOptions : Option ReqOpts := none
  deriving DecidableEq, Repr

/-- `defaultRequestOptions` (lines 128-132): `json: true`, `strictSSL:
false`, and the URL assembled from `defaultConfig`. -/
def defaultRequestOptions : ReqOpts :=
  { json := some (.bool true), strictSSL := .bool false,
    url := "https://localhost:8088/services/collector/event/1.0",
    headers := none, body := none }

/-- `_initializeRequestOptions` (lines 326-346).  `config` is always the
just-resolved config at the modelled call sites (line 414 and the defaults
fallback is unreachable there), `options` the context's current
`requestOptions` (absent on first normalisation). -/
def mkRequestOptions (config : JSConfig) (options : Option ReqOpts) : ReqOpts :=
  let dflt : ReqOpts := defaultRequestOptions
  let opts := options.getD dflt
  let urlv := (valOf config.protocol).toStr ++ "://" ++ (valOf config.host).toStr
      ++ ":" ++ (valOf config.port).toStr ++ (valOf config.path).toStr
  let hs := opts.headers.getD {}
  let hs := if (valOf config.token).truthy then
      { hs with auth := some ("Splunk " ++ (valOf config.token).toStr) }
    else hs
  { json := if opts.json.isSome then opts.json else dflt.json,
    strictSSL := jsOr opts.strictSSL (.bool false),
    url := urlv,
    headers := some hs,
    body := none }

/-- `_initializeMessage` (lines 354-359): reject `undefined` / `null`. -/
def normalizeMessage : Option MsgVal → Except String MsgVal
  | none => .error "Message argument is required."
  | some (.atom .undef) => .error "Message argument is required."
  | some (.atom .nullv) => .error "Message argument is required."
  | some m => .ok m

/-- The empty metadata object `{}`. -/
def emptyMeta : JSMeta := .mobj none none none none none

/-- `_initializeMetadata` (lines 369-389): copy the five recognised keys of
`context.metadata` when present.  A present `metadata` key holding
`undefined`/`null` makes the source crash with a `TypeError` on
`hasOwnProperty`; primitive values box and carry no own keys. -/
def normalizeMetadata (ctx : JSContext) : Except String JSMeta :=
  match ctx.metadata with
  | none => .ok emptyMeta
  | some (.atom .undef) => .error "TypeError: cannot read hasOwnProperty of undefined"
  | some (.atom .nullv) => .error "TypeError: cannot read hasOwnProperty of null"
  | some (.atom _) => .ok emptyMeta
  | some (.mobj t h s st i) => .ok (.mobj t h s st i)

/-- `_initializeContext` (lines 399-423).  The context argument checks come
first; config resolution (line 412) precedes the message-value check
(line 416).  Returns the normalised context plus the instance-config and
timer updates made by `resolveConfig`.  A non-object context argument
("Context argument must be an object.") is outside the modelled domain. -/
def normalizeContext (inst : JSConfig) (tm : TimerState) :
    Option JSContext → Except String (JSContext × JSConfig × TimerState)
  | none => .error "Context argument is required."
  | some ctx =>
    if ctx.message.isNone then .error "Context argument must have the message property set."
    else
      match resolveConfig inst tm (ctx.config.getD inst) with
      | .error e => .error e
      | .ok r =>
        let cfg := r.1
        let reqOpts := mkRequestOptions cfg ctx.requestOptions
        match normalizeMessage ctx.message with
        | .error e => .error e
        | .ok msg =>
          let sev := jsOr (valOf ctx.severity) (.str "info")
          let mdE : Except String JSMeta :=
            match ctx.metadata with
            | some m => if metaTruthy m then .ok m else normalizeMetadata ctx
            | none => normalizeMetadata ctx
          match mdE with
          | .error e => .error e
          | .ok md =>
            .ok ({ message := some msg, severity := some sev, metadata := some md,
                   config := some cfg, requestOptions := some reqOpts }, r.2.1, r.2.2)

/-- Modelled from the spec: `utils.formatTime` (`utils.js` is not under
`src/`).  Spec §6 requires the wire `time` as a string of epoch seconds with
fractional precision; modelled as milliseconds rendered `"s.mmm"`.  A
non-numeric time value renders as `"NaN"`. -/
def formatTime (a : JSAtom) : String :=
  match jsToNumber a with
  | some ms =>
    let s := ms / 1000
    let frac := (ms % 1000).toNat
    toString s ++ "." ++
      (if frac < 10 then "00" else if frac < 100 then "0" else "") ++ toString frac
  | none => "NaN"

/-- `_makeBody` (lines 433-447): filter the metadata, stamp the time
(`body.time || Date.now()`, with `Date.now` passed in as `now`), and nest
`{message, severity}` under `event`. -/
def makeBody (ctx : JSContext) (now : Int) : Except String MsgVal :=
  match normalizeMetadata ctx with
  | .error e => .error e
  | .ok md =>
    match md with
    | .atom _ => .error "unreachable: normalizeMetadata returns an object"
    | .mobj t h s st i =>
      let time := formatTime (jsOr (valOf t) (.num now))
      .ok (.body time h s st i (valOfMsg ctx.message) (jsOr (valOf ctx.severity) (.str "info")))

/-- `JSON.stringify` of a scalar (a Node built-in, modelled concretely; the
byte-exact output is not load-bearing for any claim, so string escaping is
elided).  `undefined` inside an object elides the key, which the callers
below implement. -/
def stringifyAtom : JSAtom → String
  | .undef => "null"
  | .nullv => "null"
  | .bool b => if b then "true" else "false"
  | .num n => toString n
  | .str s => "\"" ++ s ++ "\""
  | .obj _ => "\x7b\x7d"

/-- One `key: value` JSON member for an optional field, eliding absent keys
and `undefined` values as `JSON.stringify` does. -/
def memberOf (key : String) : Option JSAtom → String
  | none => ""
  | some .undef => ""
  | some v => ",\"" ++ key ++ "\":" ++ stringifyAtom v

/-- `JSON.stringify` of a message value / `_makeBody` envelope. -/
def stringifyMsg : MsgVal → String
  | .atom a => stringifyAtom a
  | .body time h s st i em sev =>
    "\x7b\"time\":\"" ++ time ++ "\"" ++ memberOf "host" h ++ memberOf "source" s
      ++ memberOf "sourcetype" st ++ memberOf "index" i
      ++ ",\"event\":\x7b\"message\":" ++ stringifyMsg em
      ++ ",\"severity\":" ++ stringifyAtom sev ++ "\x7d\x7d"

/-- A middleware step (§4.5): given the context handed to it, the pair of
arguments it passes to its continuation `next(error, context)`. -/
def Middleware : Type := Option JSContext → Option String × Option JSContext

/-- The mutable fields of a `SplunkLogger` instance (lines 77-99). -/
structure LoggerState where
  config : JSConfig
  timer : TimerState
  contextQueue : List JSContext
  eventSizes : List Nat
  middlewares : List Middleware

/-- `calculateBatchSize` (lines 487-493): sum of the recorded sizes. -/
def calculateBatchSize (st : LoggerState) : Nat :=
  st.eventSizes.foldl (· + ·) 0

/-- Modelled from the spec: `utils.expBackoff` (`utils.js` is not under
`src/`).  Spec §4.6/§9 call for an exponentially increasing delay,
monotone in the attempt number; modelled as `2 ^ attempt` milliseconds. -/
def expBackoff (attempt : Nat) : Nat := 2 ^ attempt

/-- The `{code, text}` body the collector returns (spec §6); `code` is kept
post-`toString` (the source compares `body.code.toString() !== "0"`). -/
structure Body where
  code : String
  text : String
  deriving DecidableEq, Repr

/-- Outcome of one `request.post` (the external transport, spec §6):
either a transport error or a response (opaque id) with an optional body. -/
inductive TransportResult where
  | terr (e : String)
  | tok (resp : Nat) (body : Option Body)
  deriving DecidableEq, Repr

/-- An error handed to the error sink `this.error`. -/
inductive SinkErr where
  | mw (e : String)
  | transport (e : String)
  | service (code text : String)
  deriving DecidableEq, Repr

/-- Everything observable about one `_sendEvents` run: number of POST
attempts, the backoff delays inserted between consecutive attempts, the
error handed to the sink (if any) and the `(err, response, body)` triple
passed to the completion callback. -/
structure SendOutcome where
  attempts : Nat
  delays : List Nat
  sink : Option SinkErr
  cbErr : Option String
  cbResp : Option Nat
  cbBody : Option Body
  deriving DecidableEq, Repr

/-- The retry loop of `_sendEvents` (lines 527-555), driven by
`utils.whilst` (modelled from the spec: an asynchronous while).  `k` is the
1-based attempt number (`numRetries` after its post-increment); attempt `k`
uses `transport k`.  A transport error retries while `k <= maxRetries`
(line 547), inserting `expBackoff` keyed to the attempt number; any response
stops the loop.  Returns the attempt count, the delays inserted, and the
last transport result. -/
def sendLoop (transport : Nat → TransportResult) (maxRetries : Int) (k : Nat) :
    Nat × List Nat × TransportResult :=
  match transport k with
  | .terr e =>
    if h : (k : Int) ≤ maxRetries then
      let rest := sendLoop transport maxRetries (k + 1)
      (rest.1 + 1, expBackoff k :: rest.2.1, rest.2.2)
    else
      (1, [], .terr e)
  | .tok resp body => (1, [], .tok resp body)
termination_by (maxRetries + 1 - k).toNat
decreasing_by
  have h2 : (maxRetries + 1 - (k + 1 : Nat) : Int) < maxRetries + 1 - k := by
    push_cast; omega
  exact (Int.toNat_lt_toNat (by omega)).mpr h2

/-- `_sendEvents` (lines 513-565).  `maxRetries` is
`context.config.maxRetries` coerced to a number (`none` = `NaN`, in which
case the `utils.whilst` test is false at once and no attempt occurs).  After
the loop, a transport or Splunk error goes to the sink (lines 557-560) and
the callback receives `(requestError, _response, _body)` (line 562) — the
Splunk error is never the callback's error argument. -/
def sendEvents : Option Int → (Nat → TransportResult) → SendOutcome
  | none, _ =>
    { attempts := 0, delays := [], sink := none, cbErr := none, cbResp := none, cbBody := none }
  | some m, transport =>
    if 0 ≤ m then
      let r := sendLoop transport m 1
      match r.2.2 with
      | .terr e =>
        { attempts := r.1, delays := r.2.1, sink := some (.transport e),
          cbErr := some e, cbResp := none, cbBody := none }
      | .tok resp body =>
        let splunkErr : Option SinkErr :=
          match body with
          | some b => if b.code ≠ "0" then some (.service b.code b.text) else none
          | none => none
        { attempts := r.1, delays := r.2.1, sink := splunkErr,
          cbErr := none, cbResp := some resp, cbBody := body }
    else
      { attempts := 0, delays := [], sink := none, cbErr := none, cbResp := none, cbBody := none }

/-- Modelled from the spec: `utils.chain` (`utils.js` is not under `src/`).
Spec §4.5: the steps run strictly sequentially; each step passes
`(error, context)` to its continuation; a non-null error short-circuits, and
the final callback receives the last observed `(error, context)`. -/
def chainRun : List Middleware → Option JSContext → Option String × Option JSContext
  | [], c => (none, c)
  | f :: fs, c =>
    match f c with
    | (some e, c') => (some e, c')
    | (none, c') => chainRun fs c'

/-- What one `flush` did: the context handed to `_sendEvents` (if reached),
the `_sendEvents` outcome, the error-sink invocations `(error, context)` in
order, and the arguments of the `flush` callback invocation (if any). -/
structure FlushOut where
  sent : Option JSContext
  sendOut : Option SendOutcome
  sink : List (SinkErr × JSContext)
  cb : Option (Option String × Option Nat × Option Body)

/-- A `flush` run: the logger state after the synchronous queue updates, the
contexts this flush removed from the queue, and either the synchronously
thrown error or the observable outcome. -/
structure FlushResult where
  state : LoggerState
  taken : List JSContext
  outcome : Except String FlushOut

/-- `batchOverSize` as computed in `flush` (line 649): requires a positive
`this.config.maxBatchSize` and the live batch size above it. -/
def batchOverSizeFlush (st : LoggerState) : Bool :=
  atomGtInt (valOf st.config.maxBatchSize) 0
    && intGtAtom (calculateBatchSize st) (valOf st.config.maxBatchSize)

/-- The concatenated `_makeBody` serialisations of a drained queue
(lines 657-661). -/
def buildData (q : List JSContext) (now : Int) : Except String String :=
  q.foldlM (fun acc c => (makeBody c now).map (fun b => acc ++ stringifyMsg b)) ""

/-- Write the `Authorization` header (line 702) into a normalised context. -/
def setAuth (c : JSContext) : JSContext :=
  { c with requestOptions := c.requestOptions.map (fun r =>
      { r with headers := some { (r.headers.getD {}) with
          auth := some ("Splunk " ++ (valOf ((c.config.getD {}).token)).toStr) } }) }

/-- Write the batched `content-type` header (line 708). -/
def setContentType (c : JSContext) : JSContext :=
  { c with requestOptions := c.requestOptions.map (fun r =>
      { r with headers := some { (r.headers.getD {}) with
          contentType := some "application/x-www-form-urlencoded" } }) }

/-- The tail of `flush` from line 671 on: validate the (batched wrapper or
popped) context, run the middleware chain, and on success re-validate, set
headers/body and hand over to `_sendEvents` (lines 671-718).  `st1` already
carries this flush's queue updates and `taken` the removed contexts. -/
def flushDeliver (st1 : LoggerState) (taken : List JSContext) (ctx0 : JSContext)
    (isBatched : Bool) (transport : Nat → TransportResult) (now : Int) : FlushResult :=
  match normalizeContext st1.config st1.timer (some ctx0) with
  | .error e => { state := st1, taken := taken, outcome := .error e }
  | .ok (c1, i1, t1) =>
    let st2 := { st1 with config := i1, timer := t1 }
    match chainRun st2.middlewares (some c1) with
    | (some e, pc) =>
      -- line 689: context = passedContext || context; line 697: error sink
      let ctxE := pc.getD c1
      { state := st2, taken := taken,
        outcome := .ok { sent := none, sendOut := none, sink := [(.mw e, ctxE)], cb := none } }
    | (none, pc) =>
      let ctx2 := pc.getD c1
      match normalizeContext st2.config st2.timer (some ctx2) with
      | .error e => { state := st2, taken := taken, outcome := .error e }
      | .ok (c3, i3, t3) =>
        let st3 := { st2 with config := i3, timer := t3 }
        let c4 := setAuth c3
        let afterBody : Except String JSContext :=
          if isBatched then .ok (setContentType c4)
          else (makeBody c4 now).map (fun b => { c4 with message := some b })
        match afterBody with
        | .error e => { state := st3, taken := taken, outcome := .error e }
        | .ok c5 =>
          let c6 := { c5 with requestOptions := c5.requestOptions.map (fun r =>
              { r with body := c5.message }) }
          let mrt := jsToNumber (valOf ((c6.config.getD {}).maxRetries))
          let so := sendEvents mrt transport
          let sink : List (SinkErr × JSContext) :=
            match so.sink with
            | some s => [(s, c6)]
            | none => []
          { state := st3, taken := taken,
            outcome := .ok { sent := some c6, sendOut := some so, sink := sink,
                             cb := some (so.cbErr, so.cbResp, so.cbBody) } }

/-- `flush` (lines 644-719).  Batched (`isBatched`, line 650) flushes drain
the whole queue into one concatenated body; otherwise the most recently
queued context is popped (lines 663-668; `[].pop()` yields `undefined`, so a
fallback flush of an empty queue hands `undefined` to
`_initializeContext`). -/
def flush (st : LoggerState) (transport : Nat → TransportResult) (now : Int) :
    FlushResult :=
  let bos := batchOverSizeFlush st
  let af := (valOf st.config.autoFlush).truthy
  let isBatched := !af || (af && (bos || st.timer.id))
  if isBatched then
    let q := st.contextQueue
    let st1 := { st with contextQueue := [], eventSizes := [] }
    match buildData q now with
    | .error e => { state := st1, taken := q, outcome := .error e }
    | .ok data =>
      let ctx0 : JSContext := { message := some (.atom (.str data)) }
      flushDeliver st1 q ctx0 true transport now
  else
    let st1 := { st with
                 contextQueue := st.contextQueue.dropLast
                 eventSizes := st.eventSizes.dropLast }
    match st.contextQueue.getLast? with
    | none =>
      { state := st1, taken := [],
        outcome := .error "Context argument is required." }
    | some c => flushDeliver st1 [c] c false transport now

/-- A `send` run: the logger state after the synchronous updates, and either
the synchronously thrown error or the inner flush outcome (`none` when no
flush was triggered). -/
structure SendResult where
  state : LoggerState
  outcome : Except String (Option FlushOut)

/-- `send` (lines 619-633): normalise, push the context and its serialised
body size, then flush when `context.config.autoFlush` is truthy, no timer is
running and the batch size exceeds `context.config.maxBatchSize` (line 627 —
note: no positivity guard here, unlike `flush`). -/
def send (st : LoggerState) (ctx0 : Option JSContext)
    (transport : Nat → TransportResult) (now : Int) : SendResult :=
  match normalizeContext st.config st.timer ctx0 with
  | .error e => { state := st, outcome := .error e }
  | .ok (c1, i1, t1) =>
    let st1 := { st with
                 config := i1
                 timer := t1
                 contextQueue := st.contextQueue ++ [c1] }
    match makeBody c1 now with
    | .error e => { state := st1, outcome := .error e }
    | .ok b =>
      let st2 := { st1 with eventSizes := st1.eventSizes ++ [(stringifyMsg b).utf8ByteSize] }
      let cfg1 := c1.config.getD {}
      let bos := intGtAtom (calculateBatchSize st2) (valOf cfg1.maxBatchSize)
      if (valOf cfg1.autoFlush).truthy && !st2.timer.id && bos then
        let fr := flush st2 transport now
        { state := fr.state, outcome := fr.outcome.map some }
      else
        { state := st2, outcome := .ok none }

/-! ### Concrete fixtures used by witnesses and counterexamples -/

/-- The stopped timer state a fresh logger starts with (lines 78-79). -/
def tmOff : TimerState := { id := false, duration := 0 }

/-- A running timer of duration 5. -/
def tmRun : TimerState := { id := true, duration := 5 }

/-- The instance config produced by `new SplunkLogger({token: "t"})`: every
`defaultConfig` value filled in. -/
def instD : JSConfig :=
  { token := some (.str "t"), name := some (.str "splunk-javascript-logging/0.8.0"),
    host := some (.str "localhost"), path := some (.str "/services/collector/event/1.0"),
    protocol := some (.str "https"), port := some (.num 8088), level := some (.str "info"),
    autoFlush := some (.bool true), maxRetries := some (.num 0),
    batchInterval := some (.num 0), maxBatchSize := some (.num 0), url := none }

/-- `instD` with instance-level `maxRetries = 3`. -/
def instMR : JSConfig := { instD with maxRetries := some (.num 3) }

/-- `instD` with instance-level `batchInterval = 5`. -/
def instTimer : JSConfig := { instD with batchInterval := some (.num 5) }

/-- A raw context seed carrying only a message. -/
def ctxSeed (m : String) : JSContext := { message := some (.atom (.str m)) }

/-- The normalised context `_initializeContext` produces from `ctxSeed m`
under `instD` (instance defaults; resolved settings are `instD` itself). -/
def normSeed (m : String) : JSContext :=
  { message := some (.atom (.str m)), severity := some (.str "info"),
    metadata := some emptyMeta, config := some instD,
    requestOptions := some
      { json := some (.bool true), strictSSL := .bool false,
        url := "https://localhost:8088/services/collector/event/1.0",
        headers := some { auth := some "Splunk t", contentType := none },
        body := none } }

/-! ### Delivery engine: retries (C1) and service errors (C2) -/

/-- `expBackoff` delays over consecutive attempt numbers strictly increase. -/
theorem chain_lt_expBackoff (a n : Nat) :
    List.Chain' (· < ·) ((List.range' a n).map expBackoff) := by
  rw [List.chain'_iff_get]
  intro i hi
  simp only [List.length_map, List.length_range'] at hi
  simp only [List.get_map, List.get_range', expBackoff]
  have h2 : (1:Nat) < 2 := by norm_num
  exact Nat.pow_lt_pow_right h2 (by omega)

/-- When every attempt hits a transport error, the `_sendEvents` loop entered
at attempt `k` performs attempts `k..N+1`, inserting the backoff delays for
attempts `k..N`, and ends on attempt `N+1`'s error. -/
theorem sendLoop_allErr (t : Nat → TransportResult) (e : Nat → String)
    (ht : ∀ n, t n = .terr (e n)) (N : Nat) :
    ∀ d k, 1 ≤ k → k + d = N + 1 →
      sendLoop t (N : Int) k = (d + 1, (List.range' k d).map expBackoff, .terr (e (N + 1))) := by
  intro d
  induction d with
  | zero =>
    intro k hk1 hk2
    have hk : k = N + 1 := by omega
    subst hk
    have hgt : ¬ (((N + 1 : Nat) : Int) ≤ (N : Int)) := by push_cast; omega
    rw [sendLoop]
    simp [ht, hgt]
  | succ d ih =>
    intro k hk1 hk2
    have hle : ((k : Nat) : Int) ≤ (N : Int) := by
      have : k ≤ N := by omega
      exact_mod_cast this
    rw [sendLoop]
    simp only [ht k]
    rw [dif_pos hle]
    rw [ih (k + 1) (by omega) (by omega)]
    simp [List.range'_succ]

/-- Claim C1: with `maxRetries = N ≥ 0` and a transport on which every POST
attempt fails with a transport error, `_sendEvents` issues exactly `N + 1`
POST attempts, inserts a strictly increasing backoff delay between
consecutive attempts (`N` delays for `N + 1` attempts), and the completion
callback's error argument equals the transport error observed on the last
attempt. -/
theorem sendEvents_retry_bound (N : Nat) (t : Nat → TransportResult) (e : Nat → String)
    (ht : ∀ n, t n = .terr (e n)) :
    (sendEvents (some (N : Int)) t).attempts = N + 1 ∧
    (sendEvents (some (N : Int)) t).delays.length = N ∧
    List.Chain' (· < ·) (sendEvents (some (N : Int)) t).delays ∧
    (sendEvents (some (N : Int)) t).cbErr = some (e (N + 1)) := by
  have hloop := sendLoop_allErr t e ht N N 1 (by omega) (by omega)
  have hnn : (0 : Int) ≤ (N : Int) := by positivity
  simp only [sendEvents]
  rw [if_pos hnn, hloop]
  refine ⟨by simp, by simp, ?_, by simp⟩
  simpa using chain_lt_expBackoff 1 N

/-- Witness for C1 at `N = 2` with transport errors `"boom1"`, `"boom2"`,
`"boom3"`. -/
theorem sendEvents_retry_bound_witness :
    (∀ n, (fun k : Nat => TransportResult.terr ("boom" ++ toString k)) n
        = .terr ((fun k : Nat => "boom" ++ toString k) n)) ∧
    ((sendEvents (some ((2 : Nat) : Int)) (fun k : Nat => .terr ("boom" ++ toString k))).attempts = 2 + 1 ∧
     (sendEvents (some ((2 : Nat) : Int)) (fun k : Nat => .terr ("boom" ++ toString k))).delays.length = 2 ∧
     List.Chain' (· < ·) (sendEvents (some ((2 : Nat) : Int)) (fun k : Nat => .terr ("boom" ++ toString k))).delays ∧
     (sendEvents (some ((2 : Nat) : Int)) (fun k : Nat => .terr ("boom" ++ toString k))).cbErr
        = some ((fun k : Nat => "boom" ++ toString k) (2 + 1))) :=
  ⟨fun _ => rfl,
   sendEvents_retry_bound 2 (fun k : Nat => .terr ("boom" ++ toString k))
     (fun k : Nat => "boom" ++ toString k) (fun _ => rfl)⟩

/-- Claim C2: when the POST succeeds at the transport layer on the first
attempt but the response body carries a non-zero code, `_sendEvents` makes
exactly one POST attempt regardless of `maxRetries`, hands the service error
to the error sink exactly once, and the completion callback's error argument
is `null` — the service error is never the callback's error argument. -/
theorem sendEvents_service_error_no_retry (N : Nat) (t : Nat → TransportResult)
    (resp : Nat) (b : Body) (hb : (b.code = "0") = False) (ht : t 1 = .tok resp (some b)) :
    (sendEvents (some (N : Int)) t).attempts = 1 ∧
    (sendEvents (some (N : Int)) t).delays = [] ∧
    (sendEvents (some (N : Int)) t).sink = some (.service b.code b.text) ∧
    (sendEvents (some (N : Int)) t).cbErr = none := by
  have hnn : (0 : Int) ≤ (N : Int) := by positivity
  have hloop : sendLoop t (N : Int) 1 = (1, [], .tok resp (some b)) := by
    rw [sendLoop]
    simp [ht]
  simp only [sendEvents]
  rw [if_pos hnn, hloop]
  simp [hb]

/-- Witness for C2 at `maxRetries = 5` and a `{code: "1"}` body. -/
theorem sendEvents_service_error_witness :
    ((({ code := "1", text := "bad" } : Body).code = "0") = False) ∧
    ((fun _ : Nat => TransportResult.tok 7 (some { code := "1", text := "bad" })) 1
        = .tok 7 (some { code := "1", text := "bad" })) ∧
    ((sendEvents (some ((5 : Nat) : Int)) (fun _ => .tok 7 (some { code := "1", text := "bad" }))).attempts = 1 ∧
     (sendEvents (some ((5 : Nat) : Int)) (fun _ => .tok 7 (some { code := "1", text := "bad" }))).delays = [] ∧
     (sendEvents (some ((5 : Nat) : Int)) (fun _ => .tok 7 (some { code := "1", text := "bad" }))).sink
        = some (.service "1" "bad") ∧
     (sendEvents (some ((5 : Nat) : Int)) (fun _ => .tok 7 (some { code := "1", text := "bad" }))).cbErr = none) :=
  ⟨by decide, rfl,
   sendEvents_service_error_no_retry 5 (fun _ => .tok 7 (some { code := "1", text := "bad" }))
     7 { code := "1", text := "bad" } (by decide) rfl⟩

/-! ### Settings resolution: timer control (C3) and field order (C4) -/

/-- Inversion of a successful `_initializeConfig` run: the numeric fields
validated, the port resolved and in range, and the result assembled from the
per-field `||`-chains, with the timer upserted from the effective
`autoFlush` and batch interval. -/
theorem resolveConfig_ok_shape (inst cand : JSConfig) (tm : TimerState)
    (cfg i' : JSConfig) (t' : TimerState)
    (h : resolveConfig inst tm cand = .ok (cfg, i', t')) :
    ∃ mr mbs bi portv,
      parseNonNeg "Max retries" (jsOr (valOf cand.maxRetries) (jsOr (valOf inst.maxRetries) (.num 0))) = .ok mr ∧
      parseNonNeg "Max batch size" (jsOr (valOf cand.maxBatchSize) (jsOr (valOf inst.maxBatchSize) (.num 0))) = .ok mbs ∧
      parseNonNeg "Batch interval" (jsOr (valOf cand.batchInterval) (jsOr (valOf inst.batchInterval) (.num 0))) = .ok bi ∧
      resolvePort inst cand = .ok portv ∧
      portInRange portv = true ∧
      cfg = { inst with
              token := some (jsOr (valOf cand.token) (valOf inst.token)),
              name := some (jsOr (valOf cand.name) (jsOr (valOf inst.name) (.str "splunk-javascript-logging/0.8.0"))),
              host := some (jsOr (valOf cand.host) (jsOr (valOf inst.host) (.str "localhost"))),
              path := some (jsOr (valOf cand.path) (jsOr (valOf inst.path) (.str "/services/collector/event/1.0"))),
              protocol := some (jsOr (valOf cand.protocol) (jsOr (valOf inst.protocol) (.str "https"))),
              level := some (jsOr (valOf cand.level) (jsOr (valOf inst.level) (.str "info"))),
              maxRetries := some (.num mr), autoFlush := some (.bool (effAutoFlush inst cand)),
              maxBatchSize := some (.num mbs), batchInterval := some (.num bi),
              port := some portv } ∧
      i' = (timerUpsert tm inst (effAutoFlush inst cand) bi).2 ∧
      t' = (timerUpsert tm inst (effAutoFlush inst cand) bi).1 := by
  simp only [resolveConfig] at h
  split at h
  · simp at h
  split at h
  · simp at h
  split at h
  · simp at h
  split at h
  · simp at h
  next mr hmr =>
  split at h
  · simp at h
  next mbs hmbs =>
  split at h
  · simp at h
  next bi hbi =>
  split at h
  · simp at h
  next portv hport =>
  split at h
  next hpr =>
    simp only [Except.ok.injEq, Prod.mk.injEq] at h
    obtain ⟨hcfg, hi, ht2⟩ := h
    exact ⟨mr, mbs, bi, portv, hmr, hmbs, hbi, hport, hpr, hcfg.symm, hi.symm, ht2.symm⟩
  · simp at h

/-- With a timer running (and its stored duration non-negative, as every
reachable timer state has), the upsert leaves a timer running unless the
effective `autoFlush` is false: the interval branch of the disable condition
(line 297) tests `_timerDuration < 0`, which cannot hold. -/
theorem timerUpsert_id_of_running (tm : TimerState) (inst : JSConfig) (af : Bool) (bi : Int)
    (hid : tm.id = true) (hdur : 0 ≤ tm.duration) :
    ((timerUpsert tm inst af bi).1.id = false ↔ af = false) := by
  unfold timerUpsert
  have hneg : decide (tm.duration < 0) = false := by simp; omega
  cases af with
  | false => simp [hid, hneg]
  | true =>
    simp [hid, hneg]
    split <;> simp [hid]

/-- Claim C3 (amended): for a resolved settings snapshot produced while a
timer is running, settings resolution stops the timer exactly when the
effective `autoFlush` is false; a non-positive effective `batchInterval`
alone does not stop it (the disable condition compares the stored timer
duration against zero, not the new interval). -/
theorem resolveConfig_stops_timer_iff_autoflush_false
    (inst cand : JSConfig) (tm : TimerState) (cfg i' : JSConfig) (t' : TimerState)
    (hid : tm.id = true) (hdur : 0 ≤ tm.duration)
    (h : resolveConfig inst tm cand = .ok (cfg, i', t')) :
    (t'.id = false ↔ cfg.autoFlush = some (.bool false)) := by
  obtain ⟨mr, mbs, bi, portv, _, _, _, _, _, hcfg, _, ht2⟩ :=
    resolveConfig_ok_shape inst cand tm cfg i' t' h
  subst hcfg
  subst ht2
  rw [timerUpsert_id_of_running tm inst (effAutoFlush inst cand) bi hid hdur]
  simp

/-- Counterexample to claim C3 as stated: with `autoFlush` effectively true,
a running timer of duration 5, and a candidate `batchInterval: "0"` (a
truthy string that parses to 0), resolution succeeds with an effective
`batchInterval` of 0 — non-positive — yet the timer is still running. -/
theorem resolveConfig_keeps_timer_on_zero_interval_cex :
    (resolveConfig instTimer tmRun { batchInterval := some (.str "0") }).toOption.map
        (fun x => (x.1.autoFlush, x.1.batchInterval, x.2.2.id))
      = some (some (.bool true), some (.num 0), true) := by rfl

/-- Witness for C3 (amended) at `inst = cand = instTimer` with the timer
running: `autoFlush` stays true, so the timer keeps running. -/
theorem resolveConfig_stops_timer_witness :
    tmRun.id = true ∧ (0 : Int) ≤ tmRun.duration ∧
    resolveConfig instTimer tmRun instTimer = .ok (instTimer, instTimer, tmRun) ∧
    (tmRun.id = false ↔ instTimer.autoFlush = some (.bool false)) :=
  ⟨rfl, by norm_num [tmRun],
   by rfl,
   resolveConfig_stops_timer_iff_autoflush_false instTimer instTimer tmRun instTimer instTimer tmRun
     rfl (by norm_num [tmRun]) (by rfl)⟩

/-- Claim C4 (amended): per-field resolution picks the first JS-truthy value
among call-level, instance-level, built-in default (then integer-parses and
validates the numeric fields); `autoFlush` is resolved by key presence
(call > instance > default `true`) and `port` by call-level key presence.  A
falsy call-level value (`0`, `""`, `false`, `null`, `undefined`) therefore
falls through to the instance value or default instead of winning. -/
theorem resolveConfig_field_order (inst cand : JSConfig) (tm : TimerState)
    (cfg i' : JSConfig) (t' : TimerState)
    (h : resolveConfig inst tm cand = .ok (cfg, i', t')) :
    cfg.token = some (jsOr (valOf cand.token) (valOf inst.token)) ∧
    cfg.name = some (jsOr (valOf cand.name) (jsOr (valOf inst.name) (.str "splunk-javascript-logging/0.8.0"))) ∧
    cfg.host = some (jsOr (valOf cand.host) (jsOr (valOf inst.host) (.str "localhost"))) ∧
    cfg.path = some (jsOr (valOf cand.path) (jsOr (valOf inst.path) (.str "/services/collector/event/1.0"))) ∧
    cfg.protocol = some (jsOr (valOf cand.protocol) (jsOr (valOf inst.protocol) (.str "https"))) ∧
    cfg.level = some (jsOr (valOf cand.level) (jsOr (valOf inst.level) (.str "info"))) ∧
    (∀ k, parseIntJS (jsOr (valOf cand.maxRetries) (jsOr (valOf inst.maxRetries) (.num 0))) = some k →
        cfg.maxRetries = some (.num k)) ∧
    (∀ k, parseIntJS (jsOr (valOf cand.maxBatchSize) (jsOr (valOf inst.maxBatchSize) (.num 0))) = some k →
        cfg.maxBatchSize = some (.num k)) ∧
    (∀ k, parseIntJS (jsOr (valOf cand.batchInterval) (jsOr (valOf inst.batchInterval) (.num 0))) = some k →
        cfg.batchInterval = some (.num k)) ∧
    cfg.autoFlush = some (.bool (effAutoFlush inst cand)) ∧
    (cand.port = none → cfg.port = some (jsOr (valOf inst.port) (.num 8088))) ∧
    (∀ p k, cand.port = some p → parseIntJS p = some k → cfg.port = some (.num k)) := by
  obtain ⟨mr, mbs, bi, portv, hmr, hmbs, hbi, hport, hpr, hcfg, hi, ht2⟩ :=
    resolveConfig_ok_shape inst cand tm cfg i' t' h
  subst hcfg
  refine ⟨rfl, rfl, rfl, rfl, rfl, rfl, ?_, ?_, ?_, rfl, ?_, ?_⟩
  · intro k hk
    simp only [parseNonNeg, hk] at hmr
    split at hmr
    · simp at hmr
    · simp only [Except.ok.injEq] at hmr
      simp [hmr]
  · intro k hk
    simp only [parseNonNeg, hk] at hmbs
    split at hmbs
    · simp at hmbs
    · simp only [Except.ok.injEq] at hmbs
      simp [hmbs]
  · intro k hk
    simp only [parseNonNeg, hk] at hbi
    split at hbi
    · simp at hbi
    · simp only [Except.ok.injEq] at hbi
      simp [hbi]
  · intro hp
    simp only [resolvePort, hp] at hport
    simp only [Except.ok.injEq] at hport
    simp [hport]
  · intro p k hp hk
    simp only [resolvePort, hp, hk] at hport
    simp only [Except.ok.injEq] at hport
    simp [hport]

/-- Counterexample to claim C4 as stated: the call-level config specifies
`batchInterval = 0`, the instance has `batchInterval = 5`, yet the resolved
value is 5, not the call-level 0 — a falsy call-level value loses. -/
theorem resolveConfig_falsy_call_level_loses_cex :
    ({ batchInterval := some (.num 0) } : JSConfig).batchInterval = some (.num 0) ∧
    (resolveConfig instTimer tmOff { batchInterval := some (.num 0) }).toOption.map
        (fun x => x.1.batchInterval)
      = some (some (.num 5)) :=
  ⟨rfl, by rfl⟩

/-- Witness for C4 (amended) at `inst = instD`, `cand = {}`. -/
theorem resolveConfig_field_order_witness :
    resolveConfig instD tmOff {} = .ok (instD, instD, tmOff) ∧
    (instD.token = some (jsOr (valOf ({} : JSConfig).token) (valOf instD.token)) ∧
     instD.name = some (jsOr (valOf ({} : JSConfig).name) (jsOr (valOf instD.name) (.str "splunk-javascript-logging/0.8.0"))) ∧
     instD.host = some (jsOr (valOf ({} : JSConfig).host) (jsOr (valOf instD.host) (.str "localhost"))) ∧
     instD.path = some (jsOr (valOf ({} : JSConfig).path) (jsOr (valOf instD.path) (.str "/services/collector/event/1.0"))) ∧
     instD.protocol = some (jsOr (valOf ({} : JSConfig).protocol) (jsOr (valOf instD.protocol) (.str "https"))) ∧
     instD.level = some (jsOr (valOf ({} : JSConfig).level) (jsOr (valOf instD.level) (.str "info"))) ∧
     (∀ k, parseIntJS (jsOr (valOf ({} : JSConfig).maxRetries) (jsOr (valOf instD.maxRetries) (.num 0))) = some k →
         instD.maxRetries = some (.num k)) ∧
     (∀ k, parseIntJS (jsOr (valOf ({} : JSConfig).maxBatchSize) (jsOr (valOf instD.maxBatchSize) (.num 0))) = some k →
         instD.maxBatchSize = some (.num k)) ∧
     (∀ k, parseIntJS (jsOr (valOf ({} : JSConfig).batchInterval) (jsOr (valOf instD.batchInterval) (.num 0))) = some k →
         instD.batchInterval = some (.num k)) ∧
     instD.autoFlush = some (.bool (effAutoFlush instD {})) ∧
     (({} : JSConfig).port = none → instD.port = some (jsOr (valOf instD.port) (.num 8088))) ∧
     (∀ p k, ({} : JSConfig).port = some p → parseIntJS p = some k → instD.port = some (.num k))) :=
  ⟨by rfl, resolveConfig_field_order instD {} tmOff instD instD tmOff (by rfl)⟩

/-! ### Token validation before queueing (C5) -/

/-- Counterexample to claim C5 as stated: a candidate token `42` (truthy,
non-string) with a string instance token resolves successfully and the
effective token is the non-string `42` — resolution does not fail although
the effective token is not a string. -/
theorem resolveConfig_nonstring_effective_token_cex :
    (resolveConfig instD tmOff { token := some (.num 42) }).toOption.map
        (fun x => x.1.token) = some (some (.num 42)) ∧
    (JSAtom.num 42).isStr = false :=
  ⟨by rfl, rfl⟩

/-- Claim C5 (amended): settings resolution fails synchronously with the
`ConfigError` naming the token when the token key is missing from both the
candidate and the instance config, or when neither the candidate's nor the
instance's token is a string; the failure happens inside `send` before the
context is queued, so the queue and size sequence are unchanged.  (An
effective token that is a non-string does not by itself fail: the check
passes as soon as either side's token is a string — see the
counterexample.) -/
theorem send_token_invalid_queue_unchanged
    (st : LoggerState) (c0 : JSContext) (m : MsgVal)
    (hm : c0.message = some m)
    (hcond : (st.config.token.isNone = true ∧ (c0.config.getD st.config).token.isNone = true) ∨
             ((valOf st.config.token).isStr = false ∧ (valOf (c0.config.getD st.config).token).isStr = false))
    (transport : Nat → TransportResult) (now : Int) :
    (send st (some c0) transport now).state.contextQueue = st.contextQueue ∧
    (send st (some c0) transport now).state.eventSizes = st.eventSizes ∧
    ((send st (some c0) transport now).outcome = .error "Config object must have a token." ∨
     (send st (some c0) transport now).outcome = .error "Config token must be a string.") := by
  have hres : resolveConfig st.config st.timer (c0.config.getD st.config)
        = .error "Config object must have a token."
      ∨ resolveConfig st.config st.timer (c0.config.getD st.config)
        = .error "Config token must be a string." := by
    unfold resolveConfig
    by_cases h1 : (st.config.token.isNone = true ∧ (c0.config.getD st.config).token.isNone = true)
    · left
      rw [if_pos h1]
    · right
      rw [if_neg h1]
      have h2 : (¬(valOf st.config.token).isStr = true ∧
          ¬(valOf (c0.config.getD st.config).token).isStr = true) := by
        rcases hcond with hc | ⟨ha, hb⟩
        · exact absurd hc h1
        · exact ⟨by simp [ha], by simp [hb]⟩
      rw [if_pos h2]
  have hnorm : ∀ E, resolveConfig st.config st.timer (c0.config.getD st.config) = .error E →
      normalizeContext st.config st.timer (some c0) = .error E := by
    intro E hE
    unfold normalizeContext
    simp [hm, hE]
  rcases hres with hres | hres
  · have hn := hnorm _ hres
    simp [send, hn]
  · have hn := hnorm _ hres
    simp [send, hn]

/-- Witness for C5 (amended): a fresh logger whose instance config has no
token (`new SplunkLogger` would have thrown, modelling the constructor call)
and a context with no config: `send` fails with the token `ConfigError` and
queues nothing. -/
theorem send_token_invalid_witness :
    (ctxSeed "m").message = some (.atom (.str "m")) ∧
    ((({} : JSConfig).token.isNone = true ∧
      (((ctxSeed "m").config.getD {}).token.isNone = true))) ∧
    ((send { config := {}, timer := tmOff, contextQueue := [], eventSizes := [],
             middlewares := [] } (some (ctxSeed "m")) (fun _ => .terr "x") 9).state.contextQueue = [] ∧
     (send { config := {}, timer := tmOff, contextQueue := [], eventSizes := [],
             middlewares := [] } (some (ctxSeed "m")) (fun _ => .terr "x") 9).state.eventSizes = [] ∧
     ((send { config := {}, timer := tmOff, contextQueue := [], eventSizes := [],
              middlewares := [] } (some (ctxSeed "m")) (fun _ => .terr "x") 9).outcome
         = .error "Config object must have a token." ∨
      (send { config := {}, timer := tmOff, contextQueue := [], eventSizes := [],
              middlewares := [] } (some (ctxSeed "m")) (fun _ => .terr "x") 9).outcome
         = .error "Config token must be a string.")) :=
  ⟨rfl, ⟨rfl, rfl⟩,
   send_token_invalid_queue_unchanged
     { config := {}, timer := tmOff, contextQueue := [], eventSizes := [], middlewares := [] }
     (ctxSeed "m") (.atom (.str "m")) rfl (Or.inl ⟨rfl, rfl⟩) (fun _ => .terr "x") 9⟩

/-! ### Flush queue behaviour (C6, C7, C10) -/

/-- The delivery tail of `flush` never touches the queue or the size
sequence: whatever branch it takes, they are exactly those of the state it
was given, and the `taken` record passes through. -/
theorem flushDeliver_queue_eq (st1 : LoggerState) (taken : List JSContext)
    (ctx0 : JSContext) (b : Bool) (transport : Nat → TransportResult) (now : Int) :
    (flushDeliver st1 taken ctx0 b transport now).state.contextQueue = st1.contextQueue ∧
    (flushDeliver st1 taken ctx0 b transport now).state.eventSizes = st1.eventSizes ∧
    (flushDeliver st1 taken ctx0 b transport now).taken = taken := by
  unfold flushDeliver
  split
  · exact ⟨rfl, rfl, rfl⟩
  next c1 i1 t1 heq =>
    simp only []
    rcases hchain : chainRun st1.middlewares (some c1) with ⟨eo, pc⟩
    cases eo with
    | some e => exact ⟨rfl, rfl, rfl⟩
    | none =>
      split
      all_goals simp_all
      repeat' split
      all_goals exact ⟨rfl, rfl, rfl⟩

/-- Claim C6: on the non-batched fallback path (`autoFlush` enabled, no
timer running, batch not over size) with a non-empty queue, `flush` removes
exactly the most recently enqueued context (and its recorded size) and
leaves every older queued context and size in place for a future flush; the
removed context is the one handed to delivery. -/
theorem flush_fallback_pops_newest
    (st : LoggerState) (qs : List JSContext) (c : JSContext) (ss : List Nat) (n : Nat)
    (transport : Nat → TransportResult) (now : Int)
    (hq : st.contextQueue = qs ++ [c]) (hs : st.eventSizes = ss ++ [n])
    (haf : (valOf st.config.autoFlush).truthy = true)
    (htm : st.timer.id = false)
    (hbos : batchOverSizeFlush st = false) :
    (flush st transport now).state.contextQueue = qs ∧
    (flush st transport now).state.eventSizes = ss ∧
    (flush st transport now).taken = [c] := by
  have hlast : st.contextQueue.getLast? = some c := by
    rw [hq]
    exact List.getLast?_concat _
  have hdq : st.contextQueue.dropLast = qs := by
    rw [hq]
    exact List.dropLast_concat
  have hds : st.eventSizes.dropLast = ss := by
    rw [hs]
    exact List.dropLast_concat
  have h := flushDeliver_queue_eq
    { st with contextQueue := qs, eventSizes := ss } [c] c false transport now
  simp only [flush, haf, htm, hbos, hlast, hdq, hds, Bool.not_true, Bool.false_or,
    Bool.or_false, Bool.and_false, Bool.false_and, Bool.and_self, Bool.false_eq_true,
    if_false]
  simp only at h
  exact h

/-- Claim C7: a batched flush (`!autoFlush`, or a running timer, or batch
over size) drains the whole queue in one synchronous swap: the live context
queue and size sequence are both empty afterwards — whatever later happens
to the drained snapshot or during delivery — and `calculateBatchSize`
returns 0. -/
theorem flush_batched_drains_queue
    (st : LoggerState) (transport : Nat → TransportResult) (now : Int)
    (hb : (!(valOf st.config.autoFlush).truthy ||
           ((valOf st.config.autoFlush).truthy && (batchOverSizeFlush st || st.timer.id))) = true) :
    (flush st transport now).state.contextQueue = [] ∧
    (flush st transport now).state.eventSizes = [] ∧
    calculateBatchSize (flush st transport now).state = 0 ∧
    (flush st transport now).taken = st.contextQueue := by
  simp only [flush, hb, if_true]
  split
  · exact ⟨rfl, rfl, rfl, rfl⟩
  · next data hdata =>
    have h := flushDeliver_queue_eq
      { st with contextQueue := [], eventSizes := [] } st.contextQueue
      { message := some (.atom (.str data)) } true transport now
    simp only at h
    refine ⟨h.1, h.2.1, ?_, h.2.2⟩
    simp [calculateBatchSize, h.2.1]

/-- Claim C10: calling `flush` with an empty queue on the non-batched
fallback path (`autoFlush` enabled, no timer running, nothing queued so the
batch cannot be over size) throws `"Context argument is required."`
synchronously instead of completing as a no-op: `[].pop()` yields
`undefined`, which `_initializeContext` rejects. -/
theorem flush_empty_queue_fallback_throws
    (st : LoggerState) (transport : Nat → TransportResult) (now : Int)
    (hq : st.contextQueue = []) (hs : st.eventSizes = [])
    (haf : (valOf st.config.autoFlush).truthy = true)
    (htm : st.timer.id = false) :
    (flush st transport now).outcome = .error "Context argument is required." ∧
    (flush st transport now).taken = [] := by
  have hbos : batchOverSizeFlush st = false := by
    have hcalc : calculateBatchSize st = 0 := by simp [calculateBatchSize, hs]
    unfold batchOverSizeFlush intGtAtom atomGtInt
    rw [hcalc]
    split
    · next v hv =>
      by_cases h0 : (0:Int) < v
      · have h1 : ¬ (v < ((0:Nat):Int)) := by push_cast; omega
        simp [h0, h1]
        omega
      · simp [h0]
    · simp
  simp only [flush, haf, htm, hbos, hq, Bool.not_true, Bool.false_or, Bool.or_false,
    Bool.and_false, Bool.false_and, Bool.and_self, Bool.false_eq_true, if_false]
  exact ⟨rfl, rfl⟩

/-- Witness for C10 on a fresh default logger. -/
theorem flush_empty_queue_witness :
    ({ config := instD, timer := tmOff, contextQueue := [], eventSizes := [],
       middlewares := [] } : LoggerState).contextQueue = [] ∧
    ({ config := instD, timer := tmOff, contextQueue := [], eventSizes := [],
       middlewares := [] } : LoggerState).eventSizes = [] ∧
    (valOf instD.autoFlush).truthy = true ∧
    tmOff.id = false ∧
    ((flush { config := instD, timer := tmOff, contextQueue := [], eventSizes := [],
              middlewares := [] } (fun _ => .terr "x") 9).outcome
        = .error "Context argument is required." ∧
     (flush { config := instD, timer := tmOff, contextQueue := [], eventSizes := [],
              middlewares := [] } (fun _ => .terr "x") 9).taken = []) :=
  ⟨rfl, rfl, rfl, rfl,
   flush_empty_queue_fallback_throws
     { config := instD, timer := tmOff, contextQueue := [], eventSizes := [], middlewares := [] }
     (fun _ => .terr "x") 9 rfl rfl rfl rfl⟩

/-- A logger with two raw contexts queued, default config, no timer. -/
def stTwo : LoggerState :=
  { config := instD, timer := tmOff, contextQueue := [ctxSeed "a", ctxSeed "b"],
    eventSizes := [10, 11], middlewares := [] }

/-- A logger with one queued context and a running timer. -/
def stTimerOne : LoggerState :=
  { config := instD, timer := tmRun, contextQueue := [ctxSeed "a"],
    eventSizes := [7], middlewares := [] }

/-- Witness for C6: a two-element queue; `flush` pops only the newest. -/
theorem flush_fallback_pops_newest_witness :
    stTwo.contextQueue = [ctxSeed "a"] ++ [ctxSeed "b"] ∧
    stTwo.eventSizes = [10] ++ [11] ∧
    (valOf stTwo.config.autoFlush).truthy = true ∧
    stTwo.timer.id = false ∧
    batchOverSizeFlush stTwo = false ∧
    ((flush stTwo (fun _ => .terr "x") 9).state.contextQueue = [ctxSeed "a"] ∧
     (flush stTwo (fun _ => .terr "x") 9).state.eventSizes = [10] ∧
     (flush stTwo (fun _ => .terr "x") 9).taken = [ctxSeed "b"]) :=
  ⟨rfl, rfl, rfl, rfl, rfl,
   flush_fallback_pops_newest stTwo [ctxSeed "a"] (ctxSeed "b") [10] 11
     (fun _ => .terr "x") 9 rfl rfl rfl rfl rfl⟩

/-- Witness for C7: a running timer forces the batched path; the queue is
drained. -/
theorem flush_batched_drains_queue_witness :
    ((!(valOf stTimerOne.config.autoFlush).truthy ||
      ((valOf stTimerOne.config.autoFlush).truthy &&
       (batchOverSizeFlush stTimerOne || stTimerOne.timer.id))) = true) ∧
    ((flush stTimerOne (fun _ => .terr "x") 9).state.contextQueue = [] ∧
     (flush stTimerOne (fun _ => .terr "x") 9).state.eventSizes = [] ∧
     calculateBatchSize (flush stTimerOne (fun _ => .terr "x") 9).state = 0 ∧
     (flush stTimerOne (fun _ => .terr "x") 9).taken = stTimerOne.contextQueue) :=
  ⟨rfl, flush_batched_drains_queue stTimerOne (fun _ => .terr "x") 9 rfl⟩

/-! ### Middleware abort (C8) -/

/-- Claim C8: if a registered middleware step invokes its continuation with
a non-null error, `flush` invokes the error sink once with that error and
the last observed context (`passedContext || context`), performs no POST
(nothing is handed to `_sendEvents`), and the callback supplied to `flush`
is never invoked — in particular never with a successful result.  Stated on
the batched branch of `flush`; the delivery tail (lines 671-718) is shared
with the fallback branch. -/
theorem flush_middleware_error_no_post
    (st : LoggerState) (transport : Nat → TransportResult) (now : Int)
    (data : String) (c1 : JSContext) (i1 : JSConfig) (t1 : TimerState)
    (e : String) (pc : Option JSContext)
    (hb : (!(valOf st.config.autoFlush).truthy ||
           ((valOf st.config.autoFlush).truthy && (batchOverSizeFlush st || st.timer.id))) = true)
    (hdata : buildData st.contextQueue now = .ok data)
    (hinit : normalizeContext st.config st.timer
        (some { message := some (.atom (.str data)) }) = .ok (c1, i1, t1))
    (hchain : chainRun st.middlewares (some c1) = (some e, pc)) :
    (flush st transport now).outcome
      = .ok { sent := none, sendOut := none, sink := [(.mw e, pc.getD c1)], cb := none } := by
  simp only [flush, hb, if_true, hdata]
  simp only [flushDeliver]
  simp only [hinit]
  simp only [hchain]

/-- A middleware step that aborts with an error. -/
def mwFail : Middleware := fun _ => (some "mw-fail", none)

/-- `instD` with `autoFlush` false (manual batching). -/
def instDNoAF : JSConfig := { instD with autoFlush := some (.bool false) }

/-- A manual-batching logger with `mwFail` registered and an empty queue. -/
def stMw : LoggerState :=
  { config := instDNoAF, timer := tmOff, contextQueue := [], eventSizes := [],
    middlewares := [mwFail] }

/-- The context `flush` builds and normalises for `stMw`'s (empty) batch. -/
def c8norm : JSContext :=
  { message := some (.atom (.str "")), severity := some (.str "info"),
    metadata := some emptyMeta, config := some instDNoAF,
    requestOptions := some
      { json := some (.bool true), strictSSL := .bool false,
        url := "https://localhost:8088/services/collector/event/1.0",
        headers := some { auth := some "Splunk t", contentType := none },
        body := none } }

/-- Witness for C8: a manual flush through an aborting middleware reaches
the sink and never POSTs. -/
theorem flush_middleware_error_witness :
    ((!(valOf stMw.config.autoFlush).truthy ||
      ((valOf stMw.config.autoFlush).truthy && (batchOverSizeFlush stMw || stMw.timer.id))) = true) ∧
    buildData stMw.contextQueue 9 = .ok "" ∧
    normalizeContext stMw.config stMw.timer
        (some { message := some (.atom (.str "")) }) = .ok (c8norm, instDNoAF, tmOff) ∧
    chainRun stMw.middlewares (some c8norm) = (some "mw-fail", none) ∧
    (flush stMw (fun _ => .terr "never") 9).outcome
      = .ok { sent := none, sendOut := none, sink := [(.mw "mw-fail", Option.getD none c8norm)],
              cb := none } :=
  ⟨rfl, rfl, by rfl, rfl,
   flush_middleware_error_no_post stMw (fun _ => .terr "never") 9 "" c8norm instDNoAF tmOff
     "mw-fail" none rfl rfl (by rfl) rfl⟩

/-! ### Normalizer idempotence (C9) -/

/-- JS `a || b` keeps a truthy left operand. -/
theorem jsOr_of_truthy (a b : JSAtom) (h : a.truthy = true) : jsOr a b = a := by
  simp [jsOr, h]

/-- `a || "info"` is always truthy (the source's severity default). -/
theorem jsOr_info_truthy (a : JSAtom) : (jsOr a (.str "info")).truthy = true := by
  unfold jsOr
  by_cases h : a.truthy = true
  · rw [if_pos h]
    exact h
  · rw [if_neg h]
    rfl

/-- `a || false` is idempotent (the source's `strictSSL` default chain). -/
theorem jsOr_false_idem (x : JSAtom) :
    jsOr (jsOr x (.bool false)) (.bool false) = jsOr x (.bool false) := by
  unfold jsOr
  by_cases h : x.truthy = true
  · rw [if_pos h, if_pos h]
  · rw [if_neg h]
    rfl

/-- Rebuilding request options from their own output (same config) is the
identity: `_initializeRequestOptions` is idempotent in its options input. -/
theorem mkRequestOptions_idem (cfg : JSConfig) (r : Option ReqOpts) :
    mkRequestOptions cfg (some (mkRequestOptions cfg r)) = mkRequestOptions cfg r := by
  unfold mkRequestOptions
  simp only [Option.getD_some]
  by_cases h : (valOf cfg.token).truthy = true
  · by_cases hj : (r.getD defaultRequestOptions).json.isSome = true
    · simp [h, hj, jsOr_false_idem]
    · simp [h, hj, jsOr_false_idem]
  · by_cases hj : (r.getD defaultRequestOptions).json.isSome = true
    · simp [h, hj, jsOr_false_idem]
    · simp [h, hj, jsOr_false_idem]

/-- A message accepted by `_initializeMessage` is accepted again. -/
theorem normalizeMessage_idem (m0 : Option MsgVal) (msg : MsgVal)
    (h : normalizeMessage m0 = .ok msg) : normalizeMessage (some msg) = .ok msg := by
  cases m0 with
  | none => simp [normalizeMessage] at h
  | some m =>
    cases m with
    | atom a =>
      cases a with
      | undef => simp [normalizeMessage] at h
      | nullv => simp [normalizeMessage] at h
      | bool b =>
        simp [normalizeMessage] at h
        subst h
        rfl
      | num n =>
        simp [normalizeMessage] at h
        subst h
        rfl
      | str s =>
        simp [normalizeMessage] at h
        subst h
        rfl
      | obj i =>
        simp [normalizeMessage] at h
        subst h
        rfl
    | body t mh ms mst mi em sev =>
      simp [normalizeMessage] at h
      subst h
      rfl

/-- `_initializeMetadata` always returns a (truthy) plain object. -/
theorem metaTruthy_of_normalizeMetadata (ctx : JSContext) (md : JSMeta)
    (h : normalizeMetadata ctx = .ok md) : metaTruthy md = true := by
  unfold normalizeMetadata at h
  split at h <;> simp_all [emptyMeta, metaTruthy] <;> (subst h; rfl)

/-- Claim C9 (amended): re-normalising an already-normalised context yields
the identical context whenever the context's resolved settings snapshot is a
fixed point of settings resolution at the time of the second pass (in
particular always when every resolved field re-resolves to itself, e.g. the
default snapshot): message, severity, metadata and request options are
reproduced exactly.  In general the second pass re-resolves falsy fields of
the snapshot against the instance config, so idempotence can fail — see the
counterexample. -/
theorem normalizeContext_idempotent_of_fixed_config
    (inst inst2 i1 i2 : JSConfig) (tm tm2 t1 t2' : TimerState) (c0 c1 : JSContext)
    (h1 : normalizeContext inst tm (some c0) = .ok (c1, i1, t1))
    (h2 : resolveConfig inst2 tm2 (c1.config.getD inst2) = .ok (c1.config.getD inst2, i2, t2')) :
    normalizeContext inst2 tm2 (some c1) = .ok (c1, i2, t2') := by
  simp only [normalizeContext] at h1
  split at h1
  · simp at h1
  split at h1
  · simp at h1
  next r heqc =>
  split at h1
  · simp at h1
  next msg heqm =>
  split at h1
  · simp at h1
  next md heqmd =>
  simp only [Except.ok.injEq, Prod.mk.injEq] at h1
  obtain ⟨hc1, hi1, ht1⟩ := h1
  subst hc1
  have hmd : metaTruthy md = true := by
    split at heqmd
    · next m hm =>
      split at heqmd
      · next hmt =>
        simp only [Except.ok.injEq] at heqmd
        subst heqmd
        exact hmt
      · exact metaTruthy_of_normalizeMetadata _ _ heqmd
    · exact metaTruthy_of_normalizeMetadata _ _ heqmd
  have h2' : resolveConfig inst2 tm2 r.1 = .ok (r.1, i2, t2') := by
    simpa using h2
  have hm2 := normalizeMessage_idem _ _ heqm
  simp only [normalizeContext, Option.isNone_some, Bool.false_eq_true, if_false,
    Option.getD_some, h2', hm2, valOf, hmd, if_true,
    jsOr_of_truthy _ _ (jsOr_info_truthy _), mkRequestOptions_idem]

/-- A context seed whose call-level config sets `maxRetries: "0"` (a truthy
string parsing to 0). -/
def ctxMR0 : JSContext :=
  { message := some (.atom (.str "m")),
    config := some { token := some (.str "t"), maxRetries := some (.str "0") } }

/-- Counterexample to claim C9 as stated: under an instance config with
`maxRetries = 3`, normalising `ctxMR0` resolves `maxRetries` to 0 (the
string `"0"` wins the `||`-chain, then parses to the falsy 0); normalising
the result again re-resolves the falsy 0 against the instance value and
yields `maxRetries = 3` — the twice-normalised context differs from the
once-normalised one. -/
theorem normalizeContext_not_idempotent_cex :
    normalizeContext instMR tmOff (some ctxMR0) = .ok (normSeed "m", instMR, tmOff) ∧
    (normSeed "m").config.map JSConfig.maxRetries = some (some (.num 0)) ∧
    (normalizeContext instMR tmOff (some (normSeed "m"))).toOption.map
        (fun x => x.1.config.map JSConfig.maxRetries) = some (some (some (.num 3))) :=
  ⟨by rfl, rfl, by rfl⟩

/-- Witness for C9 (amended): the default snapshot `instD` is a fixed point,
so re-normalising `normSeed "a"` reproduces it exactly. -/
theorem normalizeContext_idempotent_witness :
    normalizeContext instD tmOff (some (ctxSeed "a")) = .ok (normSeed "a", instD, tmOff) ∧
    resolveConfig instD tmOff ((normSeed "a").config.getD instD)
      = .ok ((normSeed "a").config.getD instD, instD, tmOff) ∧
    normalizeContext instD tmOff (some (normSeed "a")) = .ok (normSeed "a", instD, tmOff) :=
  ⟨by rfl, by rfl,
   normalizeContext_idempotent_of_fixed_config instD instD instD instD tmOff tmOff tmOff tmOff
     (ctxSeed "a") (normSeed "a") (by rfl) (by rfl)⟩
